import Mathlib

/-!
Verification development for the image-text library (src/lib.rs): a text
renderer that shapes styled multi-span text blocks with cosmic-text,
measures the shaped layout, resolves two-axis block alignment against a
destination surface, and composites rasterized glyphs onto an RGBA image.

The shallow embedding below translates the repository's code into pure
Lean functions.  Machine floats (f32) are modelled as rationals; machine
integers (i32/i64/u32) as Int/Nat.  The external collaborators that the
spec places out of scope (the cosmic-text shaping engine, the swash
rasterizer cache, the image crate's pixel blend, fontdb system-font
discovery and sys-locale detection) are modelled as components of an
abstract environment `Env`, exactly at the interface the core consumes.
-/

namespace ImageText

/-- RGBA color with 8-bit channels, as in `image::Rgba<u8>` and the span
color tuples of the source.  Channels are kept as naturals. -/
abbrev Rgba := Nat × Nat × Nat × Nat

/-- `f32::round`: rounds half-way cases away from zero.  Used by the
source for `run.line_y.round()` and (via cosmic-text) for physical glyph
positions. -/
def roundAway (q : ℚ) : ℤ :=
  if 0 ≤ q then ⌊q + 1 / 2⌋ else -⌊-q + 1 / 2⌋

/-- `cosmic_text::Metrics`: a font size and an absolute line height. -/
structure Metrics where
  font_size : ℚ
  line_height : ℚ
deriving DecidableEq

/-- `Metrics::relative(font_size, line_height_scale)`: the line height is
stored as `font_size * line_height_scale`. -/
def Metrics.relative (font_size line_height_scale : ℚ) : Metrics :=
  { font_size := font_size, line_height := font_size * line_height_scale }

/-- `cosmic_text::Align`, the shaping engine's per-line alignment enum. -/
inductive Align where
  | Left
  | Right
  | End
  | Center
  | Justified
deriving DecidableEq

/-- One positioned glyph of a layout run (`cosmic_text::LayoutGlyph` at
the interface the compositor reads): a pen offset `(x, y)` relative to
the run origin/baseline, a rasterizer cache key, and an optional span
color override. -/
structure LayoutGlyph where
  x : ℚ
  y : ℚ
  cache_key : Nat
  color_opt : Option Rgba
deriving DecidableEq

/-- One layout run (`cosmic_text::LayoutRun` at the interface the core
reads): baseline y coordinate, shaped line width, and positioned glyphs. -/
structure LayoutRun where
  line_y : ℚ
  line_w : ℚ
  glyphs : List LayoutGlyph
deriving DecidableEq

/-- The resolved per-span shaping attributes that `shape_text_block`
submits to `Buffer::set_rich_text`: text, resolved font family (span
override, else block default, else system default = none), weight,
per-span metrics, and color. -/
structure SpanAttrs where
  text : String
  family : Option String
  weight : Nat
  metrics : Metrics
  color : Rgba
deriving DecidableEq

/-- Everything the shaping engine reads from a buffer when laying it
out: base metrics, rich-text spans, default attributes' family, the box
size constraint, and the per-line alignment. -/
structure ShapeInput where
  metrics : Metrics
  spans : List SpanAttrs
  defaultFamily : Option String
  size : Option ℚ × Option ℚ
  align : Option Align
deriving DecidableEq

/-- `cosmic_text::Buffer` at the interface the core uses: the fields the
core writes (metrics, rich text, size, per-line align) plus the layout
runs produced by the most recent `shape_until_scroll`. -/
structure Buffer where
  metrics : Metrics
  spans : List SpanAttrs
  defaultFamily : Option String
  size : Option ℚ × Option ℚ
  align : Option Align
  runs : List LayoutRun
deriving DecidableEq

/-- `Buffer::new_empty(metrics)`. -/
def Buffer.new_empty (metrics : Metrics) : Buffer :=
  { metrics := metrics, spans := [], defaultFamily := none,
    size := (none, none), align := none, runs := [] }

/-- `Buffer::set_size(width_opt, height_opt)`: records the soft box
constraint (layout is recomputed by the next `shape_until_scroll`). -/
def Buffer.set_size (b : Buffer) (width_opt height_opt : Option ℚ) : Buffer :=
  { b with size := (width_opt, height_opt) }

/-- The shaping-relevant projection of a buffer. -/
def Buffer.toShapeInput (b : Buffer) : ShapeInput :=
  { metrics := b.metrics, spans := b.spans, defaultFamily := b.defaultFamily,
    size := b.size, align := b.align }

/-- `swash::scale::image::Content`: the tagged kind of a rasterized
glyph bitmap. -/
inductive SwashContent where
  | Mask
  | SubpixelMask
  | Color
deriving DecidableEq

/-- `swash` placement of a rasterized glyph: left/top bearing offsets
from the glyph origin, and pixel dimensions. -/
structure Placement where
  left : ℤ
  top : ℤ
  width : Nat
  height : Nat
deriving DecidableEq

/-- A rasterized glyph image returned by the swash cache: placement,
content kind, and raw pixel bytes (1 byte per pixel for masks, 4 bytes
per pixel RGBA for pre-colored bitmaps). -/
structure SwashImage where
  placement : Placement
  content : SwashContent
  data : List Nat
deriving DecidableEq

/-- `fontdb::Database` at the interface the core uses: the collection of
available font families. -/
abbrev FontDb := List String

/-- The external collaborators, modelled as abstract deterministic
functions at exactly the interfaces the core consumes:
`shaper` is the cosmic-text layout engine (locale- and font-db-dependent),
`rasterizer` is the swash glyph rasterizer keyed by cache key,
`blend` is the image crate's per-pixel source-over compositing,
`systemFonts` is what `fontdb::Database::load_system_fonts` discovers,
and `locale` is what `sys_locale::get_locale` reports. -/
structure Env where
  systemFonts : FontDb
  locale : Option String
  shaper : String → FontDb → ShapeInput → List LayoutRun
  rasterizer : FontDb → Nat → Option SwashImage
  blend : Rgba → Rgba → Rgba

/-- `cosmic_text::FontSystem`: locale, font database, and an internal
shape-plan cache that shaping fills (modelled as the list of inputs
shaped so far; it never influences layout results). -/
structure FontSystem where
  locale : String
  db : FontDb
  cache : List ShapeInput

/-- `cosmic_text::SwashCache`: the rasterized-glyph cache (modelled as
the list of keys looked up so far; lookups are served by the
deterministic `Env.rasterizer`). -/
structure SwashCache where
  cached : List Nat

/-- `TextPainter`: the long-lived painter holding the font system and
the swash cache. -/
structure TextPainter where
  font_system : FontSystem
  swash_cache : SwashCache

/-- `Buffer::shape_until_scroll(&mut font_system, prune)`: lays the
buffer out with the engine from its current fields, and records the
input in the font system's shape cache. -/
def shape_until_scroll (env : Env) (fs : FontSystem) (b : Buffer) :
    Buffer × FontSystem :=
  ({ b with runs := env.shaper fs.locale fs.db b.toShapeInput },
   { fs with cache := b.toShapeInput :: fs.cache })

/-- A single styled text span (`Text` in the source). -/
structure Text where
  text : String
  font_size : ℚ
  font_weight : Nat
  color : Rgba
  font : Option String
  line_height : Option ℚ
deriving DecidableEq

/-- `Text::new`. -/
def Text.new (text : String) : Text :=
  { text := text, font_size := 32, font_weight := 400,
    color := (255, 255, 255, 255), font := none, line_height := none }

/-- `AxisAlign`: per-axis alignment intent for a text block. -/
inductive AxisAlign where
  | StartAt (v : ℚ)
  | EndAt (v : ℚ)
  | CenterAt (v : ℚ)
  | CenterAtCanvasCenter
deriving DecidableEq

/-- `AxisAlign::default()`. -/
def AxisAlign.default : AxisAlign := AxisAlign.StartAt 0

/-- `TextBlockPosition`: the pair of per-axis alignments. -/
structure TextBlockPosition where
  x : AxisAlign
  y : AxisAlign
deriving DecidableEq

/-- `TextBlockPosition::default()`. -/
def TextBlockPosition.default : TextBlockPosition :=
  { x := AxisAlign.default, y := AxisAlign.default }

/-- `TextAlign`: how text is aligned within a block. -/
inductive TextAlign where
  | Left
  | Right
  | End
  | Center
  | Justified
deriving DecidableEq

/-- `TextBlock`: the caller-facing block description. -/
structure TextBlock where
  alignment : TextBlockPosition
  max_width : Option ℚ
  max_height : Option ℚ
  text_align : TextAlign
  text_spans : List Text
  font : Option String
deriving DecidableEq

/-- `TextBlock::new()`. -/
def TextBlock.new : TextBlock :=
  { alignment := TextBlockPosition.default, max_width := none,
    max_height := none, text_align := TextAlign.Left, text_spans := [],
    font := none }

/-- `TextBlock::string(text)`. -/
def TextBlock.string (text : String) : TextBlock :=
  { alignment := TextBlockPosition.default, max_width := none,
    max_height := none, text_align := TextAlign.Left,
    text_spans := [Text.new text], font := none }

/-- The destination surface (`image::GenericImage<Pixel = Rgba<u8>>`):
pixel dimensions and a total pixel map. -/
structure Image where
  width : Nat
  height : Nat
  pixelAt : ℤ → ℤ → Rgba

/-- A glyph's RGBA patch built by the compositor before overlaying
(an `image::ImageBuffer<Rgba<u8>, _>`). -/
structure GlyphPatch where
  width : Nat
  height : Nat
  pixelAt : Nat → Nat → Rgba

/-- `image::imageops::overlay(bottom, top, x, y)`: alpha-composites the
patch over the destination at integer offset `(ox, oy)`, clipping any
portion outside the destination bounds; the per-pixel math is the image
crate's `blend`. -/
def overlay (blend : Rgba → Rgba → Rgba) (bottom : Image) (top : GlyphPatch)
    (ox oy : ℤ) : Image :=
  { bottom with pixelAt := fun i j =>
      if ox ≤ i ∧ i < ox + top.width ∧ oy ≤ j ∧ j < oy + top.height ∧
          0 ≤ i ∧ i < bottom.width ∧ 0 ≤ j ∧ j < bottom.height then
        (blend (bottom.pixelAt i j) (top.pixelAt (i - ox).toNat (j - oy).toNat))
      else
        bottom.pixelAt i j }

/-- `cosmic_text::PhysicalGlyph`: integer physical position plus the
rasterizer cache key. -/
structure PhysicalGlyph where
  x : ℤ
  y : ℤ
  cache_key : Nat
deriving DecidableEq

/-- `LayoutGlyph::physical((x, y), 1.0)` — external cosmic-text code,
modelled at the interface the spec describes: the physical position is
the rounded sum of the draw origin and the glyph's pen offset. -/
def LayoutGlyph.physical (glyph : LayoutGlyph) (x y : ℚ) : PhysicalGlyph :=
  { x := roundAway (x + glyph.x), y := roundAway (y + glyph.y),
    cache_key := glyph.cache_key }

/-- Byte read of a single-channel (Luma) bitmap at pixel `(x, y)`:
`glyph_luma_image.get_pixel(x, y)[0]` with row stride `width`. -/
def lumaAt (data : List Nat) (width x y : Nat) : Nat :=
  data.getD (y * width + x) 0

/-- Pixel read of a 4-bytes-per-pixel RGBA bitmap at `(x, y)` with row
stride `width` (the `from_raw` layout of `ImageBuffer<Rgba<u8>, _>`). -/
def rgbaBytesAt (data : List Nat) (width x y : Nat) : Rgba :=
  (data.getD (4 * (y * width + x)) 0,
   data.getD (4 * (y * width + x) + 1) 0,
   data.getD (4 * (y * width + x) + 2) 0,
   data.getD (4 * (y * width + x) + 3) 0)

/-- The RGBA patch the compositor builds for one glyph (the two match
arms of `add_text` on `glyph_image.content`): a coverage mask is
broadcast to the span color (default opaque white) with per-pixel alpha
from the mask; a pre-colored bitmap is used verbatim. -/
def glyph_patch (glyph : LayoutGlyph) (glyph_image : SwashImage) : GlyphPatch :=
  match glyph_image.content with
  | SwashContent.Mask | SwashContent.SubpixelMask =>
    let c := glyph.color_opt.getD (255, 255, 255, 255)
    { width := glyph_image.placement.width,
      height := glyph_image.placement.height,
      pixelAt := fun x y =>
        (c.1, c.2.1, c.2.2.1,
         lumaAt glyph_image.data glyph_image.placement.width x y) }
  | SwashContent.Color =>
    { width := glyph_image.placement.width,
      height := glyph_image.placement.height,
      pixelAt := fun x y =>
        rgbaBytesAt glyph_image.data glyph_image.placement.width x y }

/-- `let glyph_x = physical_glyph.x + glyph_image.placement.left`. -/
def glyph_draw_x (physicalX : ℤ) (placement : Placement) : ℤ :=
  physicalX + placement.left

/-- `let glyph_y = run.line_y.round() as i32 + physical_glyph.y
- glyph_image.placement.top`. -/
def glyph_draw_y (lineY : ℚ) (physicalY : ℤ) (placement : Placement) : ℤ :=
  roundAway lineY + physicalY - placement.top

/-- The body of `add_text`'s inner loop for one glyph: compute the
physical glyph, look it up in the swash cache (a miss skips the glyph),
build the patch and overlay it at the computed integer position. -/
def draw_glyph (env : Env) (fs : FontSystem) (x y : ℚ) (run : LayoutRun)
    (image : Image) (glyph : LayoutGlyph) : Image :=
  let physical_glyph := glyph.physical x y
  match env.rasterizer fs.db physical_glyph.cache_key with
  | none => image
  | some glyph_image =>
    overlay env.blend image (glyph_patch glyph glyph_image)
      (glyph_draw_x physical_glyph.x glyph_image.placement)
      (glyph_draw_y run.line_y physical_glyph.y glyph_image.placement)

/-- `TextPainter::add_text`: iterate runs in order, glyphs in order,
drawing each onto the image. -/
def add_text (env : Env) (fs : FontSystem) (image : Image) (x y : ℚ)
    (buffer : Buffer) : Image :=
  buffer.runs.foldl
    (fun image run => run.glyphs.foldl (draw_glyph env fs x y run) image)
    image

/-- The 1:1 mapping from the block's `TextAlign` to the engine's
`Align` applied to every line in `shape_text_block`. -/
def mapAlign (a : TextAlign) : Align :=
  match a with
  | TextAlign.Left => Align.Left
  | TextAlign.Right => Align.Right
  | TextAlign.End => Align.End
  | TextAlign.Center => Align.Center
  | TextAlign.Justified => Align.Justified

/-- `DEFAULT_FONT_SIZE` in `shape_text_block`. -/
def DEFAULT_FONT_SIZE : ℚ := 32

/-- `TextPainter::shape_text_block`: seed the buffer metrics from the
first span (defaults 32.0 / 1.0), resolve each span's attributes
(family = span override else block default, relative metrics, weight,
color), set the rich text, the size constraint from `max_width` /
`max_height`, the per-line alignment, and shape. -/
def shape_text_block (env : Env) (fs : FontSystem) (text_block : TextBlock) :
    Buffer × FontSystem :=
  let block_font_size :=
    (text_block.text_spans.head?.map Text.font_size).getD DEFAULT_FONT_SIZE
  let block_line_height :=
    (text_block.text_spans.head?.bind Text.line_height).getD 1
  let buffer := Buffer.new_empty (Metrics.relative block_font_size block_line_height)
  let spans := text_block.text_spans.map (fun span =>
    { text := span.text,
      family := span.font.orElse (fun _ => text_block.font),
      weight := span.font_weight,
      metrics := Metrics.relative span.font_size (span.line_height.getD 1),
      color := span.color : SpanAttrs })
  let buffer := { buffer with spans := spans, defaultFamily := text_block.font }
  let buffer := buffer.set_size text_block.max_width text_block.max_height
  let buffer := { buffer with align := some (mapAlign text_block.text_align) }
  shape_until_scroll env fs buffer

/-- `TextPainter::measure_text_block_width`: fold of `f32::max` of the
runs' `line_w` over initial accumulator `0.0`. -/
def measure_text_block_width (buffer : Buffer) : ℚ :=
  buffer.runs.foldl (fun width run => max run.line_w width) 0

/-- `TextPainter::measure_text_block_height`: number of layout runs
times the buffer's uniform line-height metric. -/
def measure_text_block_height (buffer : Buffer) : ℚ :=
  (buffer.runs.length : ℚ) * buffer.metrics.line_height

/-- `TextPainter::shape_again_if_needed`: when the alignment is Center,
Right, End or Justified, set the buffer size to the given constraint and
reshape; otherwise do nothing. -/
def shape_again_if_needed (env : Env) (fs : FontSystem) (buffer : Buffer)
    (align : TextAlign) (width_opt height_opt : Option ℚ) :
    Buffer × FontSystem :=
  match align with
  | TextAlign.Center | TextAlign.Right | TextAlign.End | TextAlign.Justified =>
    shape_until_scroll env fs (buffer.set_size width_opt height_opt)
  | TextAlign.Left => (buffer, fs)

/-- `TextPainter::measure`: shape, read width and height, reshape if
needed (discarding the reshaped buffer), and return the measurements
read before the reshape. -/
def measure (env : Env) (painter : TextPainter) (text_block : TextBlock) :
    (ℚ × ℚ) × TextPainter :=
  let r := shape_text_block env painter.font_system text_block
  let width := measure_text_block_width r.1
  let height := measure_text_block_height r.1
  let r2 := shape_again_if_needed env r.2 r.1 text_block.text_align
    (some width) (some height)
  ((width, height), { painter with font_system := r2.2 })

/-- The text direction selector of the local `axis_position` closure. -/
inductive TextDirection where
  | Horizontal
  | Vertical
deriving DecidableEq

/-- The `axis_position` closure of `paint_text_block`: resolves one
axis's origin from the `AxisAlign` variant, measuring the buffer along
that axis and (for the canvas-center variant) reading the surface size
along that axis. -/
def axis_position (surface_width surface_height : Nat) (buffer : Buffer)
    (align : AxisAlign) (text_direction : TextDirection) : ℚ :=
  match align with
  | AxisAlign.StartAt value => value
  | AxisAlign.EndAt value =>
    let measurement :=
      match text_direction with
      | TextDirection.Horizontal => measure_text_block_width buffer
      | TextDirection.Vertical => measure_text_block_height buffer
    value - measurement
  | AxisAlign.CenterAt value =>
    let measurement :=
      match text_direction with
      | TextDirection.Horizontal => measure_text_block_width buffer
      | TextDirection.Vertical => measure_text_block_height buffer
    value - measurement / 2
  | AxisAlign.CenterAtCanvasCenter =>
    let p :=
      match text_direction with
      | TextDirection.Horizontal =>
        ((surface_width : ℚ), measure_text_block_width buffer)
      | TextDirection.Vertical =>
        ((surface_height : ℚ), measure_text_block_height buffer)
    p.1 / 2 - p.2 / 2

/-- The buffer-producing block of `paint_text_block` (lines 51-63):
shape, measure the width, and conditionally reshape with the measured
width and the block's `max_height`. -/
def paint_shaped (env : Env) (fs : FontSystem) (text_block : TextBlock) :
    Buffer × FontSystem :=
  let r := shape_text_block env fs text_block
  let measured_width := measure_text_block_width r.1
  shape_again_if_needed env r.2 r.1 text_block.text_align
    (some measured_width) text_block.max_height

/-- `TextPainter::paint_text_block`: shape (with the conditional second
pass), resolve each axis's origin independently, and composite. -/
def paint_text_block (env : Env) (painter : TextPainter) (image : Image)
    (text_block : TextBlock) : Image :=
  let r := paint_shaped env painter.font_system text_block
  let buffer := r.1
  let x := axis_position image.width image.height buffer
    text_block.alignment.x TextDirection.Horizontal
  let y := axis_position image.width image.height buffer
    text_block.alignment.y TextDirection.Vertical
  add_text env r.2 image x y buffer

/-- `TextPainter::new_with_font_db`: detect the locale (falling back to
"en-US"), build the font system over the given database, and start with
a fresh swash cache. -/
def TextPainter.new_with_font_db (env : Env) (font_database : FontDb) :
    TextPainter :=
  let locale := env.locale.getD "en-US"
  { font_system := { locale := locale, db := font_database, cache := [] },
    swash_cache := { cached := [] } }

/-- `TextPainter::new`: discover system fonts and build the painter. -/
def TextPainter.new (env : Env) : TextPainter :=
  TextPainter.new_with_font_db env env.systemFonts

/-- The free function `draw_text`: construct a brand-new painter and
paint the block once. -/
def draw_text (env : Env) (image : Image) (text_block : TextBlock) : Image :=
  let text_painter := TextPainter.new env
  paint_text_block env text_painter image text_block

/-- The measured extent of a buffer along one axis (width horizontally,
height vertically), as the spec's alignment table uses it. -/
def measure_along (buffer : Buffer) : TextDirection → ℚ
  | TextDirection.Horizontal => measure_text_block_width buffer
  | TextDirection.Vertical => measure_text_block_height buffer

/-- The destination surface's extent along one axis. -/
def surface_along (surface_width surface_height : Nat) : TextDirection → Nat
  | TextDirection.Horizontal => surface_width
  | TextDirection.Vertical => surface_height

/-- Follows the spec's words for the refinement claim about `draw_text`:
construct a brand-new painter (system-font discovery, fresh shaping and
rasterizer caches) and invoke the block-painting operation exactly once. -/
def draw_text_spec (env : Env) (image : Image) (text_block : TextBlock) : Image :=
  paint_text_block env (TextPainter.new env) image text_block

/-! Concrete fixtures used by the witness theorems. -/

/-- An environment whose shaper produces no runs and whose rasterizer
always misses. -/
def envEmpty : Env :=
  { systemFonts := [], locale := none,
    shaper := fun _ _ _ => [],
    rasterizer := fun _ _ => none,
    blend := fun _ t => t }

/-- A concrete glyph with a span color override. -/
def glyphW : LayoutGlyph :=
  { x := 0, y := 0, cache_key := 7, color_opt := some (10, 20, 30, 255) }

/-- A concrete layout run holding `glyphW`. -/
def runW : LayoutRun := { line_y := 10, line_w := 5, glyphs := [glyphW] }

/-- A second concrete layout run with no glyphs. -/
def runW2 : LayoutRun := { line_y := 20, line_w := 3, glyphs := [] }

/-- A concrete buffer holding two layout runs. -/
def bufferW : Buffer :=
  { metrics := { font_size := 32, line_height := 32 }, spans := [],
    defaultFamily := none, size := (none, none), align := none,
    runs := [runW, runW2] }

/-- A concrete font system. -/
def fsW : FontSystem := { locale := "en-US", db := [], cache := [] }

/-- A concrete 4x4 black destination surface. -/
def imgW : Image := { width := 4, height := 4, pixelAt := fun _ _ => (0, 0, 0, 0) }

/-- A concrete rasterized coverage-mask glyph image (2x1 pixels). -/
def maskImageW : SwashImage :=
  { placement := { left := 3, top := 5, width := 2, height := 1 },
    content := SwashContent.Mask, data := [9, 200] }

/-! Helper lemmas about the width fold of `measure_text_block_width`. -/

/-- The width fold never drops below its accumulator. -/
theorem foldl_max_le_acc (l : List LayoutRun) (a : ℚ) :
    a ≤ l.foldl (fun width run => max run.line_w width) a := by
  induction l generalizing a with
  | nil => exact le_refl a
  | cons r t ih =>
    simp only [List.foldl_cons]
    exact le_trans (le_max_right r.line_w a) (ih (max r.line_w a))

/-- Every run's line width is bounded by the width fold. -/
theorem mem_le_foldl_max :
    ∀ (l : List LayoutRun) (a : ℚ) (r : LayoutRun), r ∈ l →
      r.line_w ≤ l.foldl (fun width run => max run.line_w width) a := by
  intro l
  induction l with
  | nil => intro a r hr; cases hr
  | cons s t ih =>
    intro a r hr
    simp only [List.foldl_cons]
    rcases List.mem_cons.mp hr with h | h
    · subst h
      exact le_trans (le_max_left r.line_w a) (foldl_max_le_acc t _)
    · exact ih _ r h

/-- The width fold returns either the accumulator or some run's width. -/
theorem foldl_max_eq_acc_or_mem :
    ∀ (l : List LayoutRun) (a : ℚ),
      l.foldl (fun width run => max run.line_w width) a = a ∨
      ∃ r ∈ l, l.foldl (fun width run => max run.line_w width) a = r.line_w := by
  intro l
  induction l with
  | nil => intro a; exact Or.inl rfl
  | cons s t ih =>
    intro a
    simp only [List.foldl_cons]
    rcases ih (max s.line_w a) with h | ⟨r, hr, h⟩
    · rcases max_choice s.line_w a with hm | hm
      · exact Or.inr ⟨s, List.mem_cons_self s t, by rw [h, hm]⟩
      · exact Or.inl (by rw [h, hm])
    · exact Or.inr ⟨r, List.mem_cons_of_mem s hr, h⟩

/-- C1: the alignment resolver computes each axis's origin independently
from the `AxisAlign` variant on that axis: `StartAt v` resolves to `v`,
`EndAt v` to `v` minus the measured extent along that axis, `CenterAt v`
to `v` minus half the measured extent, and `CenterAtCanvasCenter` to half
the surface extent along that axis minus half the measured extent; the
result depends only on that axis's measured extent and surface extent. -/
theorem C1_axis_position_resolution :
    ∀ (sw sh : Nat) (b : Buffer) (d : TextDirection),
      (∀ v, axis_position sw sh b (AxisAlign.StartAt v) d = v) ∧
      (∀ v, axis_position sw sh b (AxisAlign.EndAt v) d = v - measure_along b d) ∧
      (∀ v, axis_position sw sh b (AxisAlign.CenterAt v) d =
        v - measure_along b d / 2) ∧
      (axis_position sw sh b AxisAlign.CenterAtCanvasCenter d =
        (surface_along sw sh d : ℚ) / 2 - measure_along b d / 2) ∧
      (∀ (sw' sh' : Nat) (b' : Buffer) (a : AxisAlign),
        measure_along b d = measure_along b' d →
        (surface_along sw sh d : ℚ) = (surface_along sw' sh' d : ℚ) →
        axis_position sw sh b a d = axis_position sw' sh' b' a d) := by
  intro sw sh b d
  refine ⟨?_, ?_, ?_, ?_, ?_⟩
  · intro v; cases d <;> rfl
  · intro v; cases d <;> rfl
  · intro v; cases d <;> rfl
  · cases d <;> rfl
  · intro sw' sh' b' a hm hs
    cases d <;> cases a <;>
      simp only [axis_position, measure_along, surface_along] at hm hs ⊢ <;>
      rw [hm] <;> rw [hs]

/-- Witness for C1 at concrete inputs: with the horizontal measured
extents and surface widths equal, the resolved x coordinate is the same
even though the surface heights differ. -/
theorem C1_axis_position_resolution_witness :
    measure_along bufferW TextDirection.Horizontal =
      measure_along bufferW TextDirection.Horizontal ∧
    (surface_along 100 50 TextDirection.Horizontal : ℚ) =
      (surface_along 100 80 TextDirection.Horizontal : ℚ) ∧
    axis_position 100 50 bufferW (AxisAlign.EndAt 40) TextDirection.Horizontal =
      axis_position 100 80 bufferW (AxisAlign.EndAt 40) TextDirection.Horizontal :=
  ⟨rfl, rfl,
    (C1_axis_position_resolution 100 50 bufferW TextDirection.Horizontal).2.2.2.2
      100 80 bufferW (AxisAlign.EndAt 40) rfl rfl⟩

/-- C2: the second shaping pass (setting the buffer size and reshaping)
happens if and only if the block's text alignment is Center, Right, End
or Justified; for Left the buffer and font system are returned untouched,
and the paint path performs exactly the single first shaping pass. -/
theorem C2_second_pass_iff_alignment :
    ∀ (env : Env) (fs : FontSystem) (b : Buffer) (w h : Option ℚ),
      (shape_again_if_needed env fs b TextAlign.Left w h = (b, fs)) ∧
      (∀ a : TextAlign, a ≠ TextAlign.Left →
        shape_again_if_needed env fs b a w h =
          shape_until_scroll env fs (b.set_size w h)) ∧
      (∀ tb : TextBlock, tb.text_align = TextAlign.Left →
        paint_shaped env fs tb = shape_text_block env fs tb) ∧
      (∀ tb : TextBlock, tb.text_align ≠ TextAlign.Left →
        paint_shaped env fs tb =
          shape_until_scroll env (shape_text_block env fs tb).2
            ((shape_text_block env fs tb).1.set_size
              (some (measure_text_block_width (shape_text_block env fs tb).1))
              tb.max_height)) := by
  intro env fs b w h
  refine ⟨rfl, ?_, ?_, ?_⟩
  · intro a ha
    cases a with
    | Left => exact absurd rfl ha
    | Right => rfl
    | End => rfl
    | Center => rfl
    | Justified => rfl
  · intro tb htb
    simp only [paint_shaped, shape_again_if_needed, htb]
  · intro tb htb
    cases h : tb.text_align with
    | Left => exact absurd h htb
    | Right => simp only [paint_shaped, shape_again_if_needed, h]
    | End => simp only [paint_shaped, shape_again_if_needed, h]
    | Center => simp only [paint_shaped, shape_again_if_needed, h]
    | Justified => simp only [paint_shaped, shape_again_if_needed, h]

/-- Witness for C2 at concrete inputs: Center alignment triggers the
resize-and-reshape second pass. -/
theorem C2_second_pass_iff_alignment_witness :
    (TextAlign.Center ≠ TextAlign.Left) ∧
    shape_again_if_needed envEmpty fsW bufferW TextAlign.Center (some 5) none =
      shape_until_scroll envEmpty fsW (bufferW.set_size (some 5) none) :=
  ⟨by decide,
    (C2_second_pass_iff_alignment envEmpty fsW bufferW (some 5) none).2.1
      TextAlign.Center (by decide)⟩

/-- C3: the measured width is the maximum of the runs' shaped line
widths (0 when there are no runs; for nonnegative line widths it is
attained by some run and bounds every run), and the measured height of a
shaped block is the run count times the single uniform line-height metric
derived from the first span's font size and relative line height, not from
per-span line heights. -/
theorem C3_measurement :
    (∀ buffer : Buffer, buffer.runs = [] → measure_text_block_width buffer = 0) ∧
    (∀ buffer : Buffer, (∀ r ∈ buffer.runs, 0 ≤ r.line_w) → buffer.runs ≠ [] →
      (∃ r ∈ buffer.runs, measure_text_block_width buffer = r.line_w) ∧
      ∀ r ∈ buffer.runs, r.line_w ≤ measure_text_block_width buffer) ∧
    (∀ (env : Env) (fs : FontSystem) (tb : TextBlock),
      measure_text_block_height (shape_text_block env fs tb).1 =
        ((shape_text_block env fs tb).1.runs.length : ℚ) *
          (((tb.text_spans.head?.map Text.font_size).getD DEFAULT_FONT_SIZE) *
            ((tb.text_spans.head?.bind Text.line_height).getD 1))) := by
  refine ⟨?_, ?_, ?_⟩
  · intro buffer h
    simp [measure_text_block_width, h]
  · intro buffer hnn hne
    constructor
    · rcases foldl_max_eq_acc_or_mem buffer.runs 0 with h | ⟨r, hr, h⟩
      · rcases List.exists_mem_of_ne_nil buffer.runs hne with ⟨r, hr⟩
        refine ⟨r, hr, le_antisymm ?_ ?_⟩
        · rw [measure_text_block_width, h]; exact hnn r hr
        · exact mem_le_foldl_max buffer.runs 0 r hr
      · exact ⟨r, hr, h⟩
    · intro r hr
      exact mem_le_foldl_max buffer.runs 0 r hr
  · intro env fs tb
    rfl

/-- Witness for C3 at a concrete buffer with two runs of nonnegative
widths 5 and 3: the measured width is attained and is an upper bound. -/
theorem C3_measurement_witness :
    (∀ r ∈ bufferW.runs, 0 ≤ r.line_w) ∧ bufferW.runs ≠ [] ∧
    ((∃ r ∈ bufferW.runs, measure_text_block_width bufferW = r.line_w) ∧
      ∀ r ∈ bufferW.runs, r.line_w ≤ measure_text_block_width bufferW) :=
  ⟨by decide, by decide, C3_measurement.2.1 bufferW (by decide) (by decide)⟩

/-- C4 counterexample: the claim says the horizontal drawing coordinate
is the physical x minus the placement's left bearing; the code computes
physical x plus the left bearing, so at physical x = 10 and left bearing
3 the drawn x is 13, not 7. -/
theorem C4_counterexample :
    glyph_draw_x 10 { left := 3, top := 5, width := 2, height := 1 } ≠ 10 - 3 := by
  decide

/-- C4 (amended): for every glyph drawn by the compositor, the horizontal
drawing coordinate is the physical x plus the placement's left bearing,
and the vertical coordinate is the run's rounded baseline y plus the
glyph's vertical pen offset minus the placement's top bearing; a cache
miss draws nothing. -/
theorem C4_glyph_draw_position :
    ∀ (env : Env) (fs : FontSystem) (x y : ℚ) (run : LayoutRun)
      (image : Image) (glyph : LayoutGlyph),
      draw_glyph env fs x y run image glyph =
        match env.rasterizer fs.db (glyph.physical x y).cache_key with
        | none => image
        | some glyph_image =>
          overlay env.blend image (glyph_patch glyph glyph_image)
            ((glyph.physical x y).x + glyph_image.placement.left)
            (roundAway run.line_y + (glyph.physical x y).y
              - glyph_image.placement.top) := by
  intro env fs x y run image glyph
  simp only [draw_glyph, glyph_draw_x, glyph_draw_y]

/-- C5: a coverage-mask glyph image becomes an RGBA patch whose every
pixel carries the span color's R/G/B channels (opaque white 255,255,255
when the glyph has no color) with alpha equal to that pixel's mask
coverage byte; a pre-colored glyph image is used verbatim, ignoring the
span color entirely. -/
theorem C5_patch_construction :
    ∀ (glyph : LayoutGlyph) (glyph_image : SwashImage),
      ((glyph_image.content = SwashContent.Mask ∨
          glyph_image.content = SwashContent.SubpixelMask) →
        ∀ px py : Nat,
          (glyph_patch glyph glyph_image).pixelAt px py =
            ((glyph.color_opt.getD (255, 255, 255, 255)).1,
             (glyph.color_opt.getD (255, 255, 255, 255)).2.1,
             (glyph.color_opt.getD (255, 255, 255, 255)).2.2.1,
             lumaAt glyph_image.data glyph_image.placement.width px py)) ∧
      (glyph_image.content = SwashContent.Color →
        (∀ px py : Nat,
          (glyph_patch glyph glyph_image).pixelAt px py =
            rgbaBytesAt glyph_image.data glyph_image.placement.width px py) ∧
        ∀ glyph' : LayoutGlyph,
          glyph_patch glyph glyph_image = glyph_patch glyph' glyph_image) := by
  intro glyph glyph_image
  obtain ⟨pl, ct, data⟩ := glyph_image
  cases ct with
  | Mask =>
    refine ⟨fun _ px py => rfl, fun hc => ?_⟩
    cases hc
  | SubpixelMask =>
    refine ⟨fun _ px py => rfl, fun hc => ?_⟩
    cases hc
  | Color =>
    refine ⟨fun hc => ?_, fun _ => ⟨fun px py => rfl, fun glyph' => rfl⟩⟩
    rcases hc with hc | hc <;> cases hc

/-- Witness for C5 at a concrete mask glyph image and a glyph with span
color (10,20,30,255): pixel (1,0) of the patch is that color with alpha
200, the coverage byte at that pixel. -/
theorem C5_patch_construction_witness :
    (maskImageW.content = SwashContent.Mask ∨
      maskImageW.content = SwashContent.SubpixelMask) ∧
    (glyph_patch glyphW maskImageW).pixelAt 1 0 = (10, 20, 30, 200) := by
  refine ⟨Or.inl rfl, ?_⟩
  have h := (C5_patch_construction glyphW maskImageW).1 (Or.inl rfl) 1 0
  simpa [glyphW, maskImageW, lumaAt] using h

/-- C6: a text block with an empty span list measures to exactly (0, 0),
and drawing it leaves every pixel of the destination surface unchanged
(given the shaping engine's contract that an empty span list yields an
empty layout). -/
theorem C6_empty_block :
    ∀ (env : Env) (painter : TextPainter) (image : Image) (tb : TextBlock),
      (∀ (locale : String) (db : FontDb) (inp : ShapeInput),
        inp.spans = [] → env.shaper locale db inp = []) →
      tb.text_spans = [] →
      (measure env painter tb).1 = (0, 0) ∧ draw_text env image tb = image := by
  intro env painter image tb hshaper hempty
  obtain ⟨al, mw, mh, ta, spans, font⟩ := tb
  simp only at hempty
  subst hempty
  have h1 : ∀ fs : FontSystem,
      (shape_text_block env fs
        { alignment := al, max_width := mw, max_height := mh, text_align := ta,
          text_spans := [], font := font }).1.runs = [] :=
    fun fs => hshaper _ _ _ rfl
  constructor
  · have hr := h1 painter.font_system
    simp [measure, measure_text_block_width, measure_text_block_height, hr]
  · have h2 : ∀ fs : FontSystem,
        (paint_shaped env fs
          { alignment := al, max_width := mw, max_height := mh, text_align := ta,
            text_spans := [], font := font }).1.runs = [] := by
      intro fs
      cases ta <;>
        exact hshaper _ _ _ rfl
    have hb := h2 (TextPainter.new env).font_system
    simp [draw_text, paint_text_block, add_text, hb]

/-- Witness for C6: the empty default text block measures to (0, 0) and
drawing it on a concrete 4x4 surface returns the surface unchanged. -/
theorem C6_empty_block_witness :
    (∀ (locale : String) (db : FontDb) (inp : ShapeInput),
      inp.spans = [] → envEmpty.shaper locale db inp = []) ∧
    TextBlock.new.text_spans = [] ∧
    (measure envEmpty (TextPainter.new envEmpty) TextBlock.new).1 = (0, 0) ∧
    draw_text envEmpty imgW TextBlock.new = imgW :=
  ⟨fun _ _ _ _ => rfl, rfl,
    (C6_empty_block envEmpty (TextPainter.new envEmpty) imgW TextBlock.new
      (fun _ _ _ _ => rfl) rfl).1,
    (C6_empty_block envEmpty (TextPainter.new envEmpty) imgW TextBlock.new
      (fun _ _ _ _ => rfl) rfl).2⟩

/-- C7: a glyph whose cache key yields no rasterized image is skipped:
it draws nothing onto the surface, and processing a glyph list containing
it equals processing the list with that glyph removed — the remaining
glyphs are still drawn and no error is raised. -/
theorem C7_cache_miss_skips :
    ∀ (env : Env) (fs : FontSystem) (x y : ℚ) (run : LayoutRun) (image : Image)
      (glyph : LayoutGlyph) (pre post : List LayoutGlyph),
      env.rasterizer fs.db (glyph.physical x y).cache_key = none →
      (draw_glyph env fs x y run image glyph = image) ∧
      ((pre ++ glyph :: post).foldl (draw_glyph env fs x y run) image =
        (pre ++ post).foldl (draw_glyph env fs x y run) image) := by
  intro env fs x y run image glyph pre post hmiss
  have hskip : ∀ img : Image, draw_glyph env fs x y run img glyph = img := by
    intro img
    simp [draw_glyph, hmiss]
  refine ⟨hskip image, ?_⟩
  simp [List.foldl_append, List.foldl_cons, hskip]

/-- Witness for C7: with a rasterizer that misses every key, the single
glyph of `runW` is skipped and the surface is returned unchanged. -/
theorem C7_cache_miss_skips_witness :
    envEmpty.rasterizer fsW.db (glyphW.physical 0 0).cache_key = none ∧
    draw_glyph envEmpty fsW 0 0 runW imgW glyphW = imgW ∧
    ([] ++ glyphW :: []).foldl (draw_glyph envEmpty fsW 0 0 runW) imgW =
      ([] ++ []).foldl (draw_glyph envEmpty fsW 0 0 runW) imgW :=
  ⟨rfl,
    (C7_cache_miss_skips envEmpty fsW 0 0 runW imgW glyphW [] [] rfl).1,
    (C7_cache_miss_skips envEmpty fsW 0 0 runW imgW glyphW [] [] rfl).2⟩

/-- The measurement returned by `measure` depends on the painter only
through the font system's locale and database, not through the shape
cache it accumulates. -/
theorem measure_fst_congr (env : Env) (p q : TextPainter) (tb : TextBlock)
    (hloc : p.font_system.locale = q.font_system.locale)
    (hdb : p.font_system.db = q.font_system.db) :
    (measure env p tb).1 = (measure env q tb).1 := by
  have hbuf : (shape_text_block env p.font_system tb).1 =
      (shape_text_block env q.font_system tb).1 := by
    simp [shape_text_block, shape_until_scroll, hloc, hdb]
  simp [measure, hbuf]

/-- The conditional reshape leaves the font system's locale unchanged. -/
theorem shape_again_snd_locale (env : Env) (fs : FontSystem) (b : Buffer)
    (a : TextAlign) (w h : Option ℚ) :
    (shape_again_if_needed env fs b a w h).2.locale = fs.locale := by
  cases a <;> rfl

/-- The conditional reshape leaves the font system's database unchanged. -/
theorem shape_again_snd_db (env : Env) (fs : FontSystem) (b : Buffer)
    (a : TextAlign) (w h : Option ℚ) :
    (shape_again_if_needed env fs b a w h).2.db = fs.db := by
  cases a <;> rfl

/-- C8: calling `measure` twice in succession on the same painter with
the same text block yields identical (width, height) results — the shape
caches the first call fills in the painter never change the second
call's measurements, and the block itself is an untouched input. -/
theorem C8_measure_idempotent :
    ∀ (env : Env) (painter : TextPainter) (tb : TextBlock),
      (measure env (measure env painter tb).2 tb).1 = (measure env painter tb).1 := by
  intro env painter tb
  refine measure_fst_congr env _ painter tb ?_ ?_
  · exact shape_again_snd_locale env _ _ _ _ _
  · exact shape_again_snd_db env _ _ _ _ _

/-- C9: the (width, height) pair returned by `measure` is exactly the
measurement of the layout produced by the first shaping pass; the
conditional second reshape, which runs after both reads, never changes
the returned values. -/
theorem C9_measure_uses_first_pass :
    ∀ (env : Env) (painter : TextPainter) (tb : TextBlock),
      (measure env painter tb).1 =
        (measure_text_block_width (shape_text_block env painter.font_system tb).1,
         measure_text_block_height (shape_text_block env painter.font_system tb).1) := by
  intro env painter tb
  rfl

/-- C10: the free function `draw_text` is the one-shot composition of
constructing a brand-new painter (system-font discovery, detected locale
with the "en-US" fallback, fresh shape and rasterizer caches) with a
single block paint; successive `draw_text` calls each use their own fresh
painter, so no painter state persists between them. -/
theorem C10_draw_text_fresh_painter :
    ∀ (env : Env) (image : Image) (tb : TextBlock),
      draw_text env image tb = draw_text_spec env image tb ∧
      TextPainter.new env =
        { font_system :=
            { locale := env.locale.getD "en-US", db := env.systemFonts,
              cache := [] },
          swash_cache := { cached := [] } } ∧
      (∀ tb2 : TextBlock,
        draw_text env (draw_text env image tb) tb2 =
          paint_text_block env (TextPainter.new env)
            (paint_text_block env (TextPainter.new env) image tb) tb2) := by
  intro env image tb
  exact ⟨rfl, rfl, fun tb2 => rfl⟩

end ImageText
